import Mathlib

/-!
The rdmacm connection-manager endpoint (`src/uct/ib/rdmacm/rdmacm_cm_ep.c`)

A shallow embedding of the endpoint's construction, teardown, disconnect and
queue-pair-number assignment.  The C functions talk to three libraries
(libibverbs, librdmacm, the UCS object/async framework); none of those is part of
the file.  They are embedded as an *environment* `Env` that fixes what every
primitive returns, and every function of the file returns, next to its C result,
the list of `Event`s it performed, in program order: the primitives it called,
the endpoint fields it assigned and the diagnostics it logged.

Pointers are natural numbers, `0` being `NULL`.  The bit masks are natural
numbers combined with `&&&` and `|||`; the values of the header constants are
not in the file and are taken as a parameter `Consts`.
-/

namespace Rdmacm

/-- A C pointer; `0` is `NULL`. -/
abbrev Ptr := Nat

/-- The status codes of `ucs_status_t` that the file returns, and `UCS_ERR_NO_MEMORY`
as a code that only the base-class initialiser can produce. -/
inductive ucs_status_t where
  | UCS_OK
  | UCS_ERR_IO_ERROR
  | UCS_ERR_INVALID_PARAM
  | UCS_ERR_UNSUPPORTED
  | UCS_ERR_NOT_IMPLEMENTED
  | UCS_ERR_NO_MEMORY
  deriving DecidableEq, Repr

open ucs_status_t

/-- The header constants the file uses.  Their values are declared outside the
file (UCT API header, verbs and rdma-cm headers), so they are a parameter. -/
structure Consts where
  UCT_EP_PARAM_FIELD_CM : Nat
  UCT_EP_PARAM_FIELD_SOCKADDR_CB_FLAGS : Nat
  UCT_EP_PARAM_FIELD_SOCKADDR : Nat
  UCT_EP_PARAM_FIELD_CONN_REQUEST : Nat
  UCT_EP_PARAM_FIELD_SOCKADDR_PACK_CB : Nat
  UCT_EP_PARAM_FIELD_SOCKADDR_DISCONNECT_CB : Nat
  UCT_EP_PARAM_FIELD_USER_DATA : Nat
  UCT_CB_FLAG_ASYNC : Nat
  IBV_QPT_UD : Nat
  RDMA_PS_TCP : Nat

/-- The capability part of `struct ibv_qp_init_attr`. -/
structure ibv_qp_cap where
  max_send_wr : Nat
  max_recv_wr : Nat
  max_send_sge : Nat
  max_recv_sge : Nat
  max_inline_data : Nat
  deriving DecidableEq, Repr

/-- The verbs descriptor `struct ibv_qp_init_attr` handed to `ibv_create_qp`. -/
structure ibv_qp_init_attr where
  qp_context : Ptr
  send_cq : Ptr
  recv_cq : Ptr
  srq : Ptr
  cap : ibv_qp_cap
  qp_type : Nat
  sq_sig_all : Nat
  deriving DecidableEq, Repr

/-- The descriptor after `memset(&qp_init_attr, 0, sizeof(qp_init_attr))`. -/
def ibv_qp_init_attr.zeroed : ibv_qp_init_attr :=
  { qp_context := 0, send_cq := 0, recv_cq := 0, srq := 0,
    cap := { max_send_wr := 0, max_recv_wr := 0, max_send_sge := 0,
             max_recv_sge := 0, max_inline_data := 0 },
    qp_type := 0, sq_sig_all := 0 }

/-- The outbound connection parameters `struct rdma_conn_param`. -/
structure rdma_conn_param where
  private_data : Ptr
  private_data_len : Nat
  responder_resources : Nat
  initiator_depth : Nat
  flow_control : Nat
  retry_count : Nat
  rnr_retry_count : Nat
  srq : Nat
  qp_num : Nat
  deriving DecidableEq, Repr

/-- The construction parameters `uct_ep_params_t`, restricted to the fields the
file reads.  `sockaddr_addr` is `params->sockaddr->addr`, and
`sockaddr_connect_cb_client` is `params->sockaddr_connect_cb.client`. -/
structure uct_ep_params_t where
  field_mask : Nat
  cm : Ptr
  sockaddr_cb_flags : Nat
  sockaddr_addr : Ptr
  conn_request : Ptr
  sockaddr_pack_cb : Ptr
  sockaddr_connect_cb_client : Ptr
  disconnect_cb : Ptr
  user_data : Ptr
  deriving DecidableEq, Repr

/-- The endpoint `uct_rdmacm_cm_ep_t`: the fields the file reads or assigns
(the declaration is in the header; the base-class part `super` is owned by the
base-class initialiser and is not represented). -/
structure uct_rdmacm_cm_ep_t where
  cm : Ptr
  id : Ptr
  cq : Ptr
  qp : Ptr
  wireup_priv_pack_cb : Ptr
  wireup_client_connect_cb : Ptr
  disconnect_cb : Ptr
  user_data : Ptr
  deriving DecidableEq, Repr

/-- The names of the endpoint fields, for recording assignments. -/
inductive Field where
  | cm
  | id
  | cq
  | qp
  | wireup_priv_pack_cb
  | wireup_client_connect_cb
  | disconnect_cb
  | user_data
  deriving DecidableEq, Repr

/-- The primitives the file calls, with the arguments passed. -/
inductive Call where
  | ibv_create_cq (context : Ptr) (cqe : Nat) (cq_context : Ptr) (channel : Ptr)
      (comp_vector : Nat)
  | ibv_create_qp (pd : Ptr) (attr : ibv_qp_init_attr)
  | ibv_destroy_cq (cq : Ptr)
  | ibv_destroy_qp (qp : Ptr)
  | rdma_create_id (channel : Ptr) (context : Ptr) (ps : Nat)
  | rdma_resolve_addr (id : Ptr) (src_addr : Ptr) (dst_addr : Ptr) (timeout_ms : Nat)
  | rdma_disconnect (id : Ptr)
  | uct_rdmacm_cm_destroy_id (id : Ptr)
  | uct_base_ep_t_init (self : Ptr) (cm : Ptr)
  | UCS_ASYNC_BLOCK (async : Ptr)
  | UCS_ASYNC_UNBLOCK (async : Ptr)
  deriving DecidableEq, Repr

/-- The diagnostics the file emits, one constructor per format string.  The
argument expressions of a diagnostic (string formatting, `rdma_get_peer_addr`) are
not represented. -/
inductive LogMsg where
  | error_ibv_create_cq_failed
  | error_failed_to_create_dummy_ud_qp
  | debug_created_ud_qp
  | error_rdma_create_id_failed
  | error_rdma_resolve_addr_failed
  | error_failed_to_disconnect
  | debug_disconnecting
  | error_field_cm_not_set
  | error_cb_flags_and_async_should_be_set
  | error_neither_sockaddr_nor_conn_request
  | error_either_sockaddr_or_conn_request
  | debug_created_an_endpoint
  | warn_ibv_destroy_qp_returned
  | warn_ibv_destroy_cq_returned
  deriving DecidableEq, Repr

/-- One observable step of a run. -/
inductive Event where
  | call (c : Call)
  | write (f : Field) (v : Ptr)
  | log (m : LogMsg)
  deriving DecidableEq, Repr

/-- What the collaborators answer.  For each primitive, its return value as a
function of its arguments; for each pointer the file dereferences into foreign
memory, the value read.  `rdma_create_id` receives the old content of `*id` and
answers with the return code and the new content of `*id`. -/
structure Env where
  ibv_create_cq : Ptr → Nat → Ptr → Ptr → Nat → Ptr
  ibv_create_qp : Ptr → ibv_qp_init_attr → Ptr
  ibv_destroy_cq : Ptr → Int
  ibv_destroy_qp : Ptr → Int
  rdma_create_id : Ptr → Ptr → Ptr → Nat → Int × Ptr
  rdma_resolve_addr : Ptr → Ptr → Ptr → Nat → Int
  rdma_disconnect : Ptr → Int
  uct_base_ep_t_init : Ptr → Ptr → ucs_status_t
  id_verbs : Ptr → Ptr
  id_pd : Ptr → Ptr
  qp_num : Ptr → Nat
  cm_ev_ch : Ptr → Ptr
  cm_worker_async : Ptr → Ptr

/-- Result of `uct_rdmacm_create_dummy_cq_qp`: the status, the content of the two
output locations `*cq_p` and `*qp_p` on return, and the events performed. -/
structure DummyResult where
  status : ucs_status_t
  cq_p : Ptr
  qp_p : Ptr
  events : List Event

/-- Result of `uct_rdamcm_cm_ep_set_qp_num`. -/
structure SetQpNumResult where
  status : ucs_status_t
  conn_param : rdma_conn_param
  cep : uct_rdmacm_cm_ep_t
  events : List Event

/-- Result of an operation on the endpoint. -/
structure EpResult where
  status : ucs_status_t
  ep : uct_rdmacm_cm_ep_t
  events : List Event

/-- The calls among a list of events, in order. -/
def callsOf : List Event → List Call
  | [] => []
  | Event.call c :: es => c :: callsOf es
  | _ :: es => callsOf es

/-- The field assignments among a list of events, in order. -/
def writesOf : List Event → List (Field × Ptr)
  | [] => []
  | Event.write f v :: es => (f, v) :: writesOf es
  | _ :: es => writesOf es

/-- Whether a call asks for a new resource (completion queue, queue pair or
connection identifier). -/
def Call.isAlloc : Call → Bool
  | .ibv_create_cq _ _ _ _ _ => true
  | .ibv_create_qp _ _ => true
  | .rdma_create_id _ _ _ => true
  | _ => false

/-- `uct_rdmacm_create_dummy_cq_qp(id, cq_p, qp_p)`; `cq_p` and `qp_p` are the
contents of the output locations on entry. -/
def uct_rdmacm_create_dummy_cq_qp (K : Consts) (E : Env) (id : Ptr) (cq_p qp_p : Ptr) :
    DummyResult :=
  let cq := E.ibv_create_cq (E.id_verbs id) 1 0 0 0
  let ev_cq := [Event.call (Call.ibv_create_cq (E.id_verbs id) 1 0 0 0)]
  if cq = 0 then
    { status := UCS_ERR_IO_ERROR, cq_p := cq_p, qp_p := qp_p,
      events := ev_cq ++ [Event.log LogMsg.error_ibv_create_cq_failed] }
  else
    let qp_init_attr : ibv_qp_init_attr :=
      { ibv_qp_init_attr.zeroed with
        send_cq := cq, recv_cq := cq, qp_type := K.IBV_QPT_UD,
        cap := { ibv_qp_init_attr.zeroed.cap with
                 max_send_wr := 2, max_recv_wr := 2, max_send_sge := 1, max_recv_sge := 1 } }
    let qp := E.ibv_create_qp (E.id_pd id) qp_init_attr
    let ev_qp := ev_cq ++ [Event.call (Call.ibv_create_qp (E.id_pd id) qp_init_attr)]
    if qp = 0 then
      { status := UCS_ERR_IO_ERROR, cq_p := cq_p, qp_p := qp_p,
        events := ev_qp ++ [Event.log LogMsg.error_failed_to_create_dummy_ud_qp,
                            Event.call (Call.ibv_destroy_cq cq)] }
    else
      { status := UCS_OK, cq_p := cq, qp_p := qp,
        events := ev_qp ++ [Event.log LogMsg.debug_created_ud_qp] }

/-- `uct_rdamcm_cm_ep_set_qp_num(conn_param, hdr, cep)`; `cq` and `qp` are the
contents of the two uninitialised locals on entry. -/
def uct_rdamcm_cm_ep_set_qp_num (K : Consts) (E : Env) (conn_param : rdma_conn_param)
    (_hdr : Ptr) (cep : uct_rdmacm_cm_ep_t) (cq qp : Ptr) : SetQpNumResult :=
  let r := uct_rdmacm_create_dummy_cq_qp K E cep.id cq qp
  if r.status ≠ UCS_OK then
    { status := r.status, conn_param := conn_param, cep := cep, events := r.events }
  else
    let cep1 := { cep with cq := r.cq_p }
    let cep2 := { cep1 with qp := r.qp_p }
    let conn_param1 := { conn_param with qp_num := E.qp_num r.qp_p }
    { status := UCS_OK, conn_param := conn_param1, cep := cep2,
      events := r.events ++ [Event.write Field.cq r.cq_p, Event.write Field.qp r.qp_p] }

/-- `uct_rdamcm_cm_ep_client_init(cep, params)`; `cep_ptr` is the address of the
endpoint, passed to `rdma_create_id` as its context. -/
def uct_rdamcm_cm_ep_client_init (K : Consts) (E : Env) (cep_ptr : Ptr)
    (cep : uct_rdmacm_cm_ep_t) (params : uct_ep_params_t) : EpResult :=
  let cep1 := { cep with wireup_client_connect_cb := params.sockaddr_connect_cb_client }
  let ev1 := [Event.write Field.wireup_client_connect_cb params.sockaddr_connect_cb_client]
  let rc := E.rdma_create_id (E.cm_ev_ch cep1.cm) cep1.id cep_ptr K.RDMA_PS_TCP
  let cep2 := { cep1 with id := rc.2 }
  let ev2 := ev1 ++ [Event.call (Call.rdma_create_id (E.cm_ev_ch cep1.cm) cep_ptr K.RDMA_PS_TCP),
                     Event.write Field.id rc.2]
  if rc.1 ≠ 0 then
    { status := UCS_ERR_IO_ERROR, ep := cep2,
      events := ev2 ++ [Event.log LogMsg.error_rdma_create_id_failed] }
  else
    let ev3 := ev2 ++ [Event.call (Call.rdma_resolve_addr cep2.id 0 params.sockaddr_addr 1000)]
    if E.rdma_resolve_addr cep2.id 0 params.sockaddr_addr 1000 ≠ 0 then
      { status := UCS_ERR_IO_ERROR, ep := cep2,
        events := ev3 ++ [Event.log LogMsg.error_rdma_resolve_addr_failed,
                          Event.call (Call.uct_rdmacm_cm_destroy_id cep2.id)] }
    else
      { status := UCS_OK, ep := cep2, events := ev3 }

/-- `uct_rdamcm_cm_ep_server_init(cep, params)`. -/
def uct_rdamcm_cm_ep_server_init (cep : uct_rdmacm_cm_ep_t) (_params : uct_ep_params_t) :
    EpResult :=
  { status := UCS_ERR_NOT_IMPLEMENTED, ep := cep, events := [] }

/-- `uct_rdmacm_cm_ep_disconnect(ep, flags)`. -/
def uct_rdmacm_cm_ep_disconnect (E : Env) (cep : uct_rdmacm_cm_ep_t) (_flags : Nat) :
    EpResult :=
  if E.rdma_disconnect cep.id ≠ 0 then
    { status := UCS_ERR_IO_ERROR, ep := cep,
      events := [Event.call (Call.rdma_disconnect cep.id),
                 Event.log LogMsg.error_failed_to_disconnect] }
  else
    { status := UCS_OK, ep := cep,
      events := [Event.call (Call.rdma_disconnect cep.id),
                 Event.log LogMsg.debug_disconnecting] }

/-- `UCS_CLASS_INIT_FUNC(uct_rdmacm_cm_ep_t, params)`; `self_ptr` is the address of
the endpoint under construction and `self` its content on entry (not yet
initialised).  `UCS_CLASS_CALL_SUPER_INIT` runs the base-class initialiser and
returns its status from the constructor when that is not `UCS_OK`. -/
def uct_rdmacm_cm_ep_t_init (K : Consts) (E : Env) (self_ptr : Ptr)
    (self : uct_rdmacm_cm_ep_t) (params : uct_ep_params_t) : EpResult :=
  if params.field_mask &&& K.UCT_EP_PARAM_FIELD_CM = 0 then
    { status := UCS_ERR_INVALID_PARAM, ep := self,
      events := [Event.log LogMsg.error_field_cm_not_set] }
  else if params.field_mask &&& K.UCT_EP_PARAM_FIELD_SOCKADDR_CB_FLAGS = 0 ∨
          params.sockaddr_cb_flags &&& K.UCT_CB_FLAG_ASYNC = 0 then
    { status := UCS_ERR_UNSUPPORTED, ep := self,
      events := [Event.log LogMsg.error_cb_flags_and_async_should_be_set] }
  else if params.field_mask &&&
            (K.UCT_EP_PARAM_FIELD_SOCKADDR ||| K.UCT_EP_PARAM_FIELD_CONN_REQUEST) = 0 then
    { status := UCS_ERR_INVALID_PARAM, ep := self,
      events := [Event.log LogMsg.error_neither_sockaddr_nor_conn_request] }
  else
    let cm := params.cm
    let ev0 := [Event.call (Call.uct_base_ep_t_init self_ptr cm)]
    if E.uct_base_ep_t_init self_ptr cm ≠ UCS_OK then
      { status := E.uct_base_ep_t_init self_ptr cm, ep := self, events := ev0 }
    else
      let priv_pack_cb :=
        if params.field_mask &&& K.UCT_EP_PARAM_FIELD_SOCKADDR_PACK_CB ≠ 0
        then params.sockaddr_pack_cb else 0
      let disconnect_cb :=
        if params.field_mask &&& K.UCT_EP_PARAM_FIELD_SOCKADDR_DISCONNECT_CB ≠ 0
        then params.disconnect_cb else 0
      let user_data :=
        if params.field_mask &&& K.UCT_EP_PARAM_FIELD_USER_DATA ≠ 0
        then params.user_data else 0
      let self1 : uct_rdmacm_cm_ep_t :=
        { self with cm := cm, wireup_priv_pack_cb := priv_pack_cb,
                    disconnect_cb := disconnect_cb, user_data := user_data,
                    cq := 0, qp := 0 }
      let ev1 := ev0 ++ [Event.write Field.cm cm,
                         Event.write Field.wireup_priv_pack_cb priv_pack_cb,
                         Event.write Field.disconnect_cb disconnect_cb,
                         Event.write Field.user_data user_data,
                         Event.write Field.cq 0,
                         Event.write Field.qp 0]
      let r : EpResult :=
        if params.field_mask &&& K.UCT_EP_PARAM_FIELD_SOCKADDR ≠ 0 then
          uct_rdamcm_cm_ep_client_init K E self_ptr self1 params
        else if params.field_mask &&& K.UCT_EP_PARAM_FIELD_CONN_REQUEST ≠ 0 then
          uct_rdamcm_cm_ep_server_init self1 params
        else
          { status := UCS_ERR_INVALID_PARAM, ep := self1,
            events := [Event.log LogMsg.error_either_sockaddr_or_conn_request] }
      if r.status = UCS_OK then
        { status := r.status, ep := r.ep,
          events := ev1 ++ r.events ++ [Event.log LogMsg.debug_created_an_endpoint] }
      else
        { status := r.status, ep := r.ep, events := ev1 ++ r.events }

/-- `UCS_CLASS_CLEANUP_FUNC(uct_rdmacm_cm_ep_t)`: returns nothing to its caller;
the result is the list of events performed. -/
def uct_rdmacm_cm_ep_t_cleanup (E : Env) (self : uct_rdmacm_cm_ep_t) : List Event :=
  let async := E.cm_worker_async self.cm
  let ev0 := [Event.call (Call.UCS_ASYNC_BLOCK async)]
  let ev1 :=
    if self.qp ≠ 0 then
      let ret := E.ibv_destroy_qp self.qp
      if ret ≠ 0 then
        ev0 ++ [Event.call (Call.ibv_destroy_qp self.qp),
                Event.log LogMsg.warn_ibv_destroy_qp_returned]
      else
        ev0 ++ [Event.call (Call.ibv_destroy_qp self.qp)]
    else ev0
  let ev2 :=
    if self.cq ≠ 0 then
      let ret := E.ibv_destroy_cq self.cq
      if ret ≠ 0 then
        ev1 ++ [Event.call (Call.ibv_destroy_cq self.cq),
                Event.log LogMsg.warn_ibv_destroy_cq_returned]
      else
        ev1 ++ [Event.call (Call.ibv_destroy_cq self.cq)]
    else ev1
  ev2 ++ [Event.call (Call.uct_rdmacm_cm_destroy_id self.id),
          Event.call (Call.UCS_ASYNC_UNBLOCK async)]

/-- The completion queue the environment hands out for identifier `id`: the value
of the one `ibv_create_cq` call of `uct_rdmacm_create_dummy_cq_qp`. -/
def dummy_cq (E : Env) (id : Ptr) : Ptr :=
  E.ibv_create_cq (E.id_verbs id) 1 0 0 0

/-- The descriptor `uct_rdmacm_create_dummy_cq_qp` passes to `ibv_create_qp` for
completion queue `cq`, written out field by field. -/
def dummy_qp_init_attr (K : Consts) (cq : Ptr) : ibv_qp_init_attr :=
  { qp_context := 0, send_cq := cq, recv_cq := cq, srq := 0,
    cap := { max_send_wr := 2, max_recv_wr := 2, max_send_sge := 1,
             max_recv_sge := 1, max_inline_data := 0 },
    qp_type := K.IBV_QPT_UD, sq_sig_all := 0 }

/-- The queue pair the environment hands out for identifier `id`: the value of the
one `ibv_create_qp` call of `uct_rdmacm_create_dummy_cq_qp`. -/
def dummy_qp (K : Consts) (E : Env) (id : Ptr) : Ptr :=
  E.ibv_create_qp (E.id_pd id) (dummy_qp_init_attr K (dummy_cq E id))

/-- The endpoint after the constructor's own field assignments (`self->cm = cm`
through `self->qp = NULL`), before the role dispatch: the state on which
`uct_rdamcm_cm_ep_client_init` or `uct_rdamcm_cm_ep_server_init` is entered. -/
def ep_before_dispatch (K : Consts) (self : uct_rdmacm_cm_ep_t) (params : uct_ep_params_t) :
    uct_rdmacm_cm_ep_t :=
  { cm := params.cm,
    id := self.id,
    cq := 0,
    qp := 0,
    wireup_priv_pack_cb :=
      if params.field_mask &&& K.UCT_EP_PARAM_FIELD_SOCKADDR_PACK_CB ≠ 0
      then params.sockaddr_pack_cb else 0,
    wireup_client_connect_cb := self.wireup_client_connect_cb,
    disconnect_cb :=
      if params.field_mask &&& K.UCT_EP_PARAM_FIELD_SOCKADDR_DISCONNECT_CB ≠ 0
      then params.disconnect_cb else 0,
    user_data :=
      if params.field_mask &&& K.UCT_EP_PARAM_FIELD_USER_DATA ≠ 0
      then params.user_data else 0 }

/-- The events of the constructor between parameter validation and role dispatch:
the base-class initialiser, then the six field assignments in source order. -/
def events_before_dispatch (K : Consts) (self_ptr : Ptr) (self : uct_rdmacm_cm_ep_t)
    (params : uct_ep_params_t) : List Event :=
  [Event.call (Call.uct_base_ep_t_init self_ptr params.cm),
   Event.write Field.cm params.cm,
   Event.write Field.wireup_priv_pack_cb (ep_before_dispatch K self params).wireup_priv_pack_cb,
   Event.write Field.disconnect_cb (ep_before_dispatch K self params).disconnect_cb,
   Event.write Field.user_data (ep_before_dispatch K self params).user_data,
   Event.write Field.cq 0,
   Event.write Field.qp 0]

/-- The role dispatch of the constructor (the `if` / `else if` / `else` on the
target-address and connection-request bits), entered on `ep_before_dispatch`. -/
def role_dispatch (K : Consts) (E : Env) (self_ptr : Ptr) (self : uct_rdmacm_cm_ep_t)
    (params : uct_ep_params_t) : EpResult :=
  if params.field_mask &&& K.UCT_EP_PARAM_FIELD_SOCKADDR ≠ 0 then
    uct_rdamcm_cm_ep_client_init K E self_ptr (ep_before_dispatch K self params) params
  else if params.field_mask &&& K.UCT_EP_PARAM_FIELD_CONN_REQUEST ≠ 0 then
    uct_rdamcm_cm_ep_server_init (ep_before_dispatch K self params) params
  else
    { status := UCS_ERR_INVALID_PARAM, ep := ep_before_dispatch K self params,
      events := [Event.log LogMsg.error_either_sockaddr_or_conn_request] }

/-- What the one `rdma_create_id` call of client construction answers: the return
code and the identifier stored into `cep->id`. -/
def created_id (K : Consts) (E : Env) (self_ptr : Ptr) (self : uct_rdmacm_cm_ep_t)
    (params : uct_ep_params_t) : Int × Ptr :=
  E.rdma_create_id (E.cm_ev_ch params.cm) self.id self_ptr K.RDMA_PS_TCP

/-- What the one `rdma_resolve_addr` call of client construction answers. -/
def resolve_ret (K : Consts) (E : Env) (self_ptr : Ptr) (self : uct_rdmacm_cm_ep_t)
    (params : uct_ep_params_t) : Int :=
  E.rdma_resolve_addr (created_id K E self_ptr self params).2 0 params.sockaddr_addr 1000

/-- A sample assignment of the header constants: distinct single bits for the
masks, used to evaluate the functions on concrete inputs. -/
def sampleConsts : Consts :=
  { UCT_EP_PARAM_FIELD_CM := 128,
    UCT_EP_PARAM_FIELD_SOCKADDR_CB_FLAGS := 32,
    UCT_EP_PARAM_FIELD_SOCKADDR := 16,
    UCT_EP_PARAM_FIELD_CONN_REQUEST := 256,
    UCT_EP_PARAM_FIELD_SOCKADDR_PACK_CB := 64,
    UCT_EP_PARAM_FIELD_SOCKADDR_DISCONNECT_CB := 2048,
    UCT_EP_PARAM_FIELD_USER_DATA := 2,
    UCT_CB_FLAG_ASYNC := 4,
    IBV_QPT_UD := 4,
    RDMA_PS_TCP := 262 }

/-- A sample environment in which every primitive succeeds. -/
def envAllOk : Env :=
  { ibv_create_cq := fun _ _ _ _ _ => 11,
    ibv_create_qp := fun _ _ => 12,
    ibv_destroy_cq := fun _ => 0,
    ibv_destroy_qp := fun _ => 0,
    rdma_create_id := fun _ _ _ _ => (0, 7),
    rdma_resolve_addr := fun _ _ _ _ => 0,
    rdma_disconnect := fun _ => 0,
    uct_base_ep_t_init := fun _ _ => UCS_OK,
    id_verbs := fun _ => 3,
    id_pd := fun _ => 4,
    qp_num := fun _ => 4660,
    cm_ev_ch := fun _ => 5,
    cm_worker_async := fun _ => 6 }

/-- A sample content of endpoint memory before construction. -/
def epGarbage : uct_rdmacm_cm_ep_t :=
  { cm := 91, id := 92, cq := 93, qp := 94, wireup_priv_pack_cb := 95,
    wireup_client_connect_cb := 96, disconnect_cb := 97, user_data := 98 }

/-- Sample construction parameters with the given mask and callback flags. -/
def sampleParams (field_mask sockaddr_cb_flags : Nat) : uct_ep_params_t :=
  { field_mask := field_mask, cm := 40, sockaddr_cb_flags := sockaddr_cb_flags,
    sockaddr_addr := 41, conn_request := 42, sockaddr_pack_cb := 43,
    sockaddr_connect_cb_client := 44, disconnect_cb := 45, user_data := 46 }

/-- Sample outbound connection parameters. -/
def sampleConnParam : rdma_conn_param :=
  { private_data := 50, private_data_len := 56, responder_resources := 1,
    initiator_depth := 1, flow_control := 1, retry_count := 7,
    rnr_retry_count := 7, srq := 0, qp_num := 0 }

/-- A sample environment in which both destroy primitives and `rdma_disconnect`
answer non-zero and `ibv_create_qp` answers `NULL`. -/
def envFailing : Env :=
  { envAllOk with
    ibv_create_qp := fun _ _ => 0,
    ibv_destroy_cq := fun _ => 16,
    ibv_destroy_qp := fun _ => 16,
    rdma_disconnect := fun _ => -1 }

/-- A sample client endpoint as construction leaves it: identifier `7`, no dummy
completion queue or queue pair. -/
def epFresh : uct_rdmacm_cm_ep_t :=
  { cm := 40, id := 7, cq := 0, qp := 0, wireup_priv_pack_cb := 0,
    wireup_client_connect_cb := 44, disconnect_cb := 0, user_data := 0 }

/-- A sample client endpoint owning completion queue `11` and queue pair `12`. -/
def epWithDummy : uct_rdmacm_cm_ep_t :=
  { epFresh with cq := 11, qp := 12 }

/-- A sample environment in which the base-class initialiser answers
`UCS_ERR_NO_MEMORY` and every other primitive succeeds. -/
def envSuperFails : Env :=
  { envAllOk with uct_base_ep_t_init := fun _ _ => UCS_ERR_NO_MEMORY }

@[simp] theorem callsOf_nil : callsOf [] = [] := rfl

@[simp] theorem callsOf_call (c : Call) (es : List Event) :
    callsOf (Event.call c :: es) = c :: callsOf es := rfl

@[simp] theorem callsOf_write (f : Field) (v : Ptr) (es : List Event) :
    callsOf (Event.write f v :: es) = callsOf es := rfl

@[simp] theorem callsOf_log (m : LogMsg) (es : List Event) :
    callsOf (Event.log m :: es) = callsOf es := rfl

@[simp] theorem callsOf_append (xs ys : List Event) :
    callsOf (xs ++ ys) = callsOf xs ++ callsOf ys := by
  induction xs with
  | nil => rfl
  | cons e es ih => cases e <;> simp [ih]

@[simp] theorem writesOf_nil : writesOf [] = [] := rfl

@[simp] theorem writesOf_call (c : Call) (es : List Event) :
    writesOf (Event.call c :: es) = writesOf es := rfl

@[simp] theorem writesOf_write (f : Field) (v : Ptr) (es : List Event) :
    writesOf (Event.write f v :: es) = (f, v) :: writesOf es := rfl

@[simp] theorem writesOf_log (m : LogMsg) (es : List Event) :
    writesOf (Event.log m :: es) = writesOf es := rfl

@[simp] theorem writesOf_append (xs ys : List Event) :
    writesOf (xs ++ ys) = writesOf xs ++ writesOf ys := by
  induction xs with
  | nil => rfl
  | cons e es ih => cases e <;> simp [ih]

theorem lor_eq_zero_iff (a b : Nat) : a ||| b = 0 ↔ a = 0 ∧ b = 0 := by
  constructor
  · intro h
    constructor
    · apply Nat.eq_of_testBit_eq
      intro i
      have hi := congrArg (fun n => Nat.testBit n i) h
      simp [Nat.testBit_or] at hi
      simp [hi.1]
    · apply Nat.eq_of_testBit_eq
      intro i
      have hi := congrArg (fun n => Nat.testBit n i) h
      simp [Nat.testBit_or] at hi
      simp [hi.2]
  · rintro ⟨rfl, rfl⟩
    rfl

theorem land_lor_eq_zero_iff (m a b : Nat) :
    m &&& (a ||| b) = 0 ↔ m &&& a = 0 ∧ m &&& b = 0 := by
  rw [Nat.and_or_distrib_left, lor_eq_zero_iff]

theorem dummy_attr_eq (K : Consts) (cq : Ptr) :
    ({ ibv_qp_init_attr.zeroed with
        send_cq := cq, recv_cq := cq, qp_type := K.IBV_QPT_UD,
        cap := { ibv_qp_init_attr.zeroed.cap with
                 max_send_wr := 2, max_recv_wr := 2, max_send_sge := 1, max_recv_sge := 1 } }
      : ibv_qp_init_attr) = dummy_qp_init_attr K cq := rfl

/-! ## The dummy-resource allocator -/

/-- C7: `uct_rdmacm_create_dummy_cq_qp` unwinds on every failure path.  When
`ibv_create_cq` answers `NULL` the status is `UCS_ERR_IO_ERROR`, the only call made
is that `ibv_create_cq` (no `ibv_create_qp` is attempted) and both output locations
keep their content.  When the completion queue is created and `ibv_create_qp`
answers `NULL` the status is `UCS_ERR_IO_ERROR`, the calls are `ibv_create_cq`,
`ibv_create_qp`, then `ibv_destroy_cq` of the completion queue just created, and
both output locations keep their content.  When both are created the status is
`UCS_OK`, nothing is destroyed and the output locations hold the two handles.  The
status is `UCS_OK` only in that last case. -/
theorem create_dummy_cq_qp_unwinds (K : Consts) (E : Env) (id cq_p qp_p : Ptr) :
    (dummy_cq E id = 0 →
      (uct_rdmacm_create_dummy_cq_qp K E id cq_p qp_p).status = UCS_ERR_IO_ERROR ∧
      callsOf (uct_rdmacm_create_dummy_cq_qp K E id cq_p qp_p).events =
        [Call.ibv_create_cq (E.id_verbs id) 1 0 0 0] ∧
      (uct_rdmacm_create_dummy_cq_qp K E id cq_p qp_p).cq_p = cq_p ∧
      (uct_rdmacm_create_dummy_cq_qp K E id cq_p qp_p).qp_p = qp_p) ∧
    (dummy_cq E id ≠ 0 → dummy_qp K E id = 0 →
      (uct_rdmacm_create_dummy_cq_qp K E id cq_p qp_p).status = UCS_ERR_IO_ERROR ∧
      callsOf (uct_rdmacm_create_dummy_cq_qp K E id cq_p qp_p).events =
        [Call.ibv_create_cq (E.id_verbs id) 1 0 0 0,
         Call.ibv_create_qp (E.id_pd id) (dummy_qp_init_attr K (dummy_cq E id)),
         Call.ibv_destroy_cq (dummy_cq E id)] ∧
      (uct_rdmacm_create_dummy_cq_qp K E id cq_p qp_p).cq_p = cq_p ∧
      (uct_rdmacm_create_dummy_cq_qp K E id cq_p qp_p).qp_p = qp_p) ∧
    (dummy_cq E id ≠ 0 → dummy_qp K E id ≠ 0 →
      (uct_rdmacm_create_dummy_cq_qp K E id cq_p qp_p).status = UCS_OK ∧
      callsOf (uct_rdmacm_create_dummy_cq_qp K E id cq_p qp_p).events =
        [Call.ibv_create_cq (E.id_verbs id) 1 0 0 0,
         Call.ibv_create_qp (E.id_pd id) (dummy_qp_init_attr K (dummy_cq E id))] ∧
      (uct_rdmacm_create_dummy_cq_qp K E id cq_p qp_p).cq_p = dummy_cq E id ∧
      (uct_rdmacm_create_dummy_cq_qp K E id cq_p qp_p).qp_p = dummy_qp K E id) ∧
    ((uct_rdmacm_create_dummy_cq_qp K E id cq_p qp_p).status = UCS_OK ↔
      dummy_cq E id ≠ 0 ∧ dummy_qp K E id ≠ 0) := by
  unfold uct_rdmacm_create_dummy_cq_qp
  simp only [dummy_attr_eq]
  unfold dummy_qp dummy_cq
  refine ⟨?_, ?_, ?_, ?_⟩
  · intro h
    simp [h]
  · intro h1 h2
    simp [h1, h2]
  · intro h1 h2
    simp [h1, h2]
  · by_cases h1 : E.ibv_create_cq (E.id_verbs id) 1 0 0 0 = 0
    · simp [h1]
    · by_cases h2 : E.ibv_create_qp (E.id_pd id)
          (dummy_qp_init_attr K (E.ibv_create_cq (E.id_verbs id) 1 0 0 0)) = 0
      · simp [h1, h2]
      · simp [h1, h2]

/-- Evaluation of C7 where `ibv_create_qp` answers `NULL`: the completion queue `11`
just created is destroyed and the status is `UCS_ERR_IO_ERROR`. -/
theorem create_dummy_cq_qp_unwinds_witness :
    (uct_rdmacm_create_dummy_cq_qp sampleConsts envFailing 7 0 0).status = UCS_ERR_IO_ERROR ∧
    callsOf (uct_rdmacm_create_dummy_cq_qp sampleConsts envFailing 7 0 0).events =
      [Call.ibv_create_cq 3 1 0 0 0,
       Call.ibv_create_qp 4 (dummy_qp_init_attr sampleConsts 11),
       Call.ibv_destroy_cq 11] :=
  ⟨((create_dummy_cq_qp_unwinds sampleConsts envFailing 7 0 0).2.1
      (by decide) (by decide)).1,
   ((create_dummy_cq_qp_unwinds sampleConsts envFailing 7 0 0).2.1
      (by decide) (by decide)).2.1⟩

theorem create_dummy_cq_qp_cases (K : Consts) (E : Env) (id cq_p qp_p : Ptr) :
    (dummy_cq E id ≠ 0 ∧ dummy_qp K E id ≠ 0 ∧
      (uct_rdmacm_create_dummy_cq_qp K E id cq_p qp_p).status = UCS_OK ∧
      callsOf (uct_rdmacm_create_dummy_cq_qp K E id cq_p qp_p).events =
        [Call.ibv_create_cq (E.id_verbs id) 1 0 0 0,
         Call.ibv_create_qp (E.id_pd id) (dummy_qp_init_attr K (dummy_cq E id))] ∧
      (uct_rdmacm_create_dummy_cq_qp K E id cq_p qp_p).cq_p = dummy_cq E id ∧
      (uct_rdmacm_create_dummy_cq_qp K E id cq_p qp_p).qp_p = dummy_qp K E id) ∨
    ((uct_rdmacm_create_dummy_cq_qp K E id cq_p qp_p).status = UCS_ERR_IO_ERROR ∧
      writesOf (uct_rdmacm_create_dummy_cq_qp K E id cq_p qp_p).events = []) := by
  unfold uct_rdmacm_create_dummy_cq_qp
  simp only [dummy_attr_eq]
  unfold dummy_qp dummy_cq
  by_cases h1 : E.ibv_create_cq (E.id_verbs id) 1 0 0 0 = 0
  · right
    simp [h1]
  · by_cases h2 : E.ibv_create_qp (E.id_pd id)
        (dummy_qp_init_attr K (E.ibv_create_cq (E.id_verbs id) 1 0 0 0)) = 0
    · right
      simp [h1, h2]
    · left
      simp [h1, h2]

/-! ## Queue-pair-number assignment -/

/-- C8: on an endpoint whose dummy `cq` and `qp` fields are absent,
`uct_rdamcm_cm_ep_set_qp_num` either returns `UCS_OK`, in which case exactly one
`ibv_create_cq` and one `ibv_create_qp` were called, both answered non-`NULL`, the
endpoint's `cq` and `qp` are those two handles (every other field as before) and
the outbound `qp_num` is the number read from that queue pair (every other
connection parameter as before); or it returns the allocator's status, which is not
`UCS_OK`, with the endpoint (so its absent `cq` and `qp`) and the connection
parameters exactly as before. -/
theorem set_qp_num_assigns_or_propagates (K : Consts) (E : Env)
    (conn_param : rdma_conn_param) (hdr : Ptr) (cep : uct_rdmacm_cm_ep_t) (cq qp : Ptr)
    (hcq : cep.cq = 0) (hqp : cep.qp = 0) :
    ((uct_rdamcm_cm_ep_set_qp_num K E conn_param hdr cep cq qp).status = UCS_OK ∧
      dummy_cq E cep.id ≠ 0 ∧ dummy_qp K E cep.id ≠ 0 ∧
      callsOf (uct_rdamcm_cm_ep_set_qp_num K E conn_param hdr cep cq qp).events =
        [Call.ibv_create_cq (E.id_verbs cep.id) 1 0 0 0,
         Call.ibv_create_qp (E.id_pd cep.id) (dummy_qp_init_attr K (dummy_cq E cep.id))] ∧
      (uct_rdamcm_cm_ep_set_qp_num K E conn_param hdr cep cq qp).cep =
        { cep with cq := dummy_cq E cep.id, qp := dummy_qp K E cep.id } ∧
      (uct_rdamcm_cm_ep_set_qp_num K E conn_param hdr cep cq qp).conn_param =
        { conn_param with qp_num := E.qp_num (dummy_qp K E cep.id) } ∧
      (uct_rdamcm_cm_ep_set_qp_num K E conn_param hdr cep cq qp).conn_param.qp_num =
        E.qp_num (uct_rdamcm_cm_ep_set_qp_num K E conn_param hdr cep cq qp).cep.qp) ∨
    ((uct_rdamcm_cm_ep_set_qp_num K E conn_param hdr cep cq qp).status =
        (uct_rdmacm_create_dummy_cq_qp K E cep.id cq qp).status ∧
      (uct_rdamcm_cm_ep_set_qp_num K E conn_param hdr cep cq qp).status ≠ UCS_OK ∧
      (uct_rdamcm_cm_ep_set_qp_num K E conn_param hdr cep cq qp).cep = cep ∧
      (uct_rdamcm_cm_ep_set_qp_num K E conn_param hdr cep cq qp).cep.cq = 0 ∧
      (uct_rdamcm_cm_ep_set_qp_num K E conn_param hdr cep cq qp).cep.qp = 0 ∧
      (uct_rdamcm_cm_ep_set_qp_num K E conn_param hdr cep cq qp).conn_param = conn_param ∧
      writesOf (uct_rdamcm_cm_ep_set_qp_num K E conn_param hdr cep cq qp).events = []) := by
  have hD := create_dummy_cq_qp_cases K E cep.id cq qp
  unfold uct_rdamcm_cm_ep_set_qp_num
  rcases hD with ⟨h1, h2, hs, hc, ho1, ho2⟩ | ⟨hs, hw⟩
  · left
    simp [hs, hc, ho1, ho2, h1, h2]
  · right
    simp [hs, hcq, hqp, hw]

/-- Witness of C8: on the fresh sample endpoint, with every primitive succeeding, the
outbound `qp_num` becomes the number `4660` of the queue pair created. -/
theorem set_qp_num_assigns_or_propagates_witness :
    (uct_rdamcm_cm_ep_set_qp_num sampleConsts envAllOk sampleConnParam 0 epFresh 0 0).status =
        UCS_OK ∧
    (uct_rdamcm_cm_ep_set_qp_num sampleConsts envAllOk sampleConnParam 0 epFresh 0
        0).conn_param.qp_num = 4660 ∧
    (uct_rdamcm_cm_ep_set_qp_num sampleConsts envAllOk sampleConnParam 0 epFresh 0 0).cep =
        epWithDummy :=
  (set_qp_num_assigns_or_propagates sampleConsts envAllOk sampleConnParam 0 epFresh 0 0
    rfl rfl).elim
    (fun h => ⟨h.1, h.2.2.2.2.2.1 ▸ rfl, h.2.2.2.2.1.trans rfl⟩)
    (fun h => absurd (by decide) h.2.1)

/-! ## Disconnect -/

/-- C9: `uct_rdmacm_cm_ep_disconnect` returns `UCS_ERR_IO_ERROR` exactly when
`rdma_disconnect` on the endpoint's identifier answers non-zero and `UCS_OK` exactly
when it answers zero; the endpoint is returned with every field as it was and no
field is assigned; and the whole result is the same for any two values of `flags`. -/
theorem disconnect_status_and_frame (E : Env) (cep : uct_rdmacm_cm_ep_t) (flags : Nat) :
    ((uct_rdmacm_cm_ep_disconnect E cep flags).status = UCS_ERR_IO_ERROR ↔
      E.rdma_disconnect cep.id ≠ 0) ∧
    ((uct_rdmacm_cm_ep_disconnect E cep flags).status = UCS_OK ↔
      E.rdma_disconnect cep.id = 0) ∧
    (uct_rdmacm_cm_ep_disconnect E cep flags).ep = cep ∧
    writesOf (uct_rdmacm_cm_ep_disconnect E cep flags).events = [] ∧
    (∀ flags2 : Nat, uct_rdmacm_cm_ep_disconnect E cep flags2 =
      uct_rdmacm_cm_ep_disconnect E cep flags) := by
  unfold uct_rdmacm_cm_ep_disconnect
  by_cases h : E.rdma_disconnect cep.id = 0
  · simp [h]
  · simp [h]

/-- Evaluation of C9 where `rdma_disconnect` answers `-1`. -/
theorem disconnect_status_and_frame_witness :
    (uct_rdmacm_cm_ep_disconnect envFailing epWithDummy 0).status = UCS_ERR_IO_ERROR ∧
    (uct_rdmacm_cm_ep_disconnect envFailing epWithDummy 0).ep = epWithDummy :=
  ⟨(disconnect_status_and_frame envFailing epWithDummy 0).1.2 (by decide),
   (disconnect_status_and_frame envFailing epWithDummy 0).2.2.1⟩

/-! ## Teardown -/

/-- C2: for every endpoint and every environment (so every combination of return
values of `ibv_destroy_qp` and `ibv_destroy_cq`), the calls of the cleanup function
are, in order: `UCS_ASYNC_BLOCK` on the manager's async context, `ibv_destroy_qp`
when and only when `qp` is not `NULL`, `ibv_destroy_cq` when and only when `cq` is
not `NULL`, `uct_rdmacm_cm_destroy_id` on the identifier, `UCS_ASYNC_UNBLOCK` on the
same async context.  The function assigns no endpoint field, and its result carries
no status. -/
theorem cleanup_call_sequence (E : Env) (self : uct_rdmacm_cm_ep_t) :
    callsOf (uct_rdmacm_cm_ep_t_cleanup E self) =
      [Call.UCS_ASYNC_BLOCK (E.cm_worker_async self.cm)] ++
      (if self.qp ≠ 0 then [Call.ibv_destroy_qp self.qp] else []) ++
      (if self.cq ≠ 0 then [Call.ibv_destroy_cq self.cq] else []) ++
      [Call.uct_rdmacm_cm_destroy_id self.id,
       Call.UCS_ASYNC_UNBLOCK (E.cm_worker_async self.cm)] ∧
    writesOf (uct_rdmacm_cm_ep_t_cleanup E self) = [] := by
  unfold uct_rdmacm_cm_ep_t_cleanup
  by_cases hq : self.qp = 0 <;> by_cases hc : self.cq = 0 <;>
    by_cases rq : E.ibv_destroy_qp self.qp = 0 <;>
    by_cases rc : E.ibv_destroy_cq self.cq = 0 <;>
    simp [hq, hc, rq, rc]

/-- Evaluation of C2 where both destroy primitives answer `16`: all five calls
are made, in order. -/
theorem cleanup_call_sequence_witness :
    callsOf (uct_rdmacm_cm_ep_t_cleanup envFailing epWithDummy) =
      [Call.UCS_ASYNC_BLOCK 6, Call.ibv_destroy_qp 12, Call.ibv_destroy_cq 11,
       Call.uct_rdmacm_cm_destroy_id 7, Call.UCS_ASYNC_UNBLOCK 6] :=
  (cleanup_call_sequence envFailing epWithDummy).1.trans (by decide)

/-! ## Construction: parameter validation -/

/-- C4, as amended: for all parameters missing the async-delivery flag (the
callback-flags field not marked present, or marked present without the `ASYNC` bit)
the constructor calls no primitive and assigns no endpoint field; it returns
`UCS_ERR_UNSUPPORTED` when the manager field is marked present and
`UCS_ERR_INVALID_PARAM` when it is not. -/
theorem init_without_async_flag (K : Consts) (E : Env) (self_ptr : Ptr)
    (self : uct_rdmacm_cm_ep_t) (params : uct_ep_params_t)
    (hasync : params.field_mask &&& K.UCT_EP_PARAM_FIELD_SOCKADDR_CB_FLAGS = 0 ∨
              params.sockaddr_cb_flags &&& K.UCT_CB_FLAG_ASYNC = 0) :
    (params.field_mask &&& K.UCT_EP_PARAM_FIELD_CM ≠ 0 →
      (uct_rdmacm_cm_ep_t_init K E self_ptr self params).status = UCS_ERR_UNSUPPORTED) ∧
    (params.field_mask &&& K.UCT_EP_PARAM_FIELD_CM = 0 →
      (uct_rdmacm_cm_ep_t_init K E self_ptr self params).status = UCS_ERR_INVALID_PARAM) ∧
    callsOf (uct_rdmacm_cm_ep_t_init K E self_ptr self params).events = [] ∧
    writesOf (uct_rdmacm_cm_ep_t_init K E self_ptr self params).events = [] ∧
    (uct_rdmacm_cm_ep_t_init K E self_ptr self params).ep = self := by
  unfold uct_rdmacm_cm_ep_t_init
  by_cases hcm : params.field_mask &&& K.UCT_EP_PARAM_FIELD_CM = 0
  · simp [hcm]
  · simp [hcm, hasync]

/-- C4 as stated fails: with an empty field mask the async-delivery flag is missing
and the constructor returns `UCS_ERR_INVALID_PARAM`, not `UCS_ERR_UNSUPPORTED`. -/
theorem init_without_async_flag_counterexample :
    ((sampleParams 0 0).field_mask &&& sampleConsts.UCT_EP_PARAM_FIELD_SOCKADDR_CB_FLAGS = 0 ∨
      (sampleParams 0 0).sockaddr_cb_flags &&& sampleConsts.UCT_CB_FLAG_ASYNC = 0) ∧
    (uct_rdmacm_cm_ep_t_init sampleConsts envAllOk 1 epGarbage (sampleParams 0 0)).status =
      UCS_ERR_INVALID_PARAM ∧
    (uct_rdmacm_cm_ep_t_init sampleConsts envAllOk 1 epGarbage (sampleParams 0 0)).status ≠
      UCS_ERR_UNSUPPORTED := by
  decide

/-- Witness of C4 as amended: manager field and target address marked present,
callback flags absent. -/
theorem init_without_async_flag_witness :
    (uct_rdmacm_cm_ep_t_init sampleConsts envAllOk 1 epGarbage (sampleParams 144 0)).status =
      UCS_ERR_UNSUPPORTED :=
  (init_without_async_flag sampleConsts envAllOk 1 epGarbage (sampleParams 144 0)
    (Or.inl (by decide))).1 (by decide)

/-- C5, as amended: for all parameters marking neither a target address nor a
connection request as present, the constructor calls no primitive and assigns no
endpoint field; it returns `UCS_ERR_INVALID_PARAM`, except when the manager field is
marked present and the async-delivery flag is missing, where it returns
`UCS_ERR_UNSUPPORTED`. -/
theorem init_without_address_or_request (K : Consts) (E : Env) (self_ptr : Ptr)
    (self : uct_rdmacm_cm_ep_t) (params : uct_ep_params_t)
    (hsock : params.field_mask &&& K.UCT_EP_PARAM_FIELD_SOCKADDR = 0)
    (hreq : params.field_mask &&& K.UCT_EP_PARAM_FIELD_CONN_REQUEST = 0) :
    (¬ (params.field_mask &&& K.UCT_EP_PARAM_FIELD_CM ≠ 0 ∧
        (params.field_mask &&& K.UCT_EP_PARAM_FIELD_SOCKADDR_CB_FLAGS = 0 ∨
         params.sockaddr_cb_flags &&& K.UCT_CB_FLAG_ASYNC = 0)) →
      (uct_rdmacm_cm_ep_t_init K E self_ptr self params).status = UCS_ERR_INVALID_PARAM) ∧
    (params.field_mask &&& K.UCT_EP_PARAM_FIELD_CM ≠ 0 ∧
        (params.field_mask &&& K.UCT_EP_PARAM_FIELD_SOCKADDR_CB_FLAGS = 0 ∨
         params.sockaddr_cb_flags &&& K.UCT_CB_FLAG_ASYNC = 0) →
      (uct_rdmacm_cm_ep_t_init K E self_ptr self params).status = UCS_ERR_UNSUPPORTED) ∧
    callsOf (uct_rdmacm_cm_ep_t_init K E self_ptr self params).events = [] ∧
    writesOf (uct_rdmacm_cm_ep_t_init K E self_ptr self params).events = [] ∧
    (uct_rdmacm_cm_ep_t_init K E self_ptr self params).ep = self := by
  have hboth : params.field_mask &&&
      (K.UCT_EP_PARAM_FIELD_SOCKADDR ||| K.UCT_EP_PARAM_FIELD_CONN_REQUEST) = 0 :=
    (land_lor_eq_zero_iff _ _ _).2 ⟨hsock, hreq⟩
  unfold uct_rdmacm_cm_ep_t_init
  by_cases hcm : params.field_mask &&& K.UCT_EP_PARAM_FIELD_CM = 0
  · simp [hcm]
  · by_cases hasync : params.field_mask &&& K.UCT_EP_PARAM_FIELD_SOCKADDR_CB_FLAGS = 0 ∨
        params.sockaddr_cb_flags &&& K.UCT_CB_FLAG_ASYNC = 0
    · simp [hcm, hasync]
    · simp [hcm, hasync, hboth]

/-- C5 as stated fails: with only the manager field marked present, neither a target
address nor a connection request is given and the constructor returns
`UCS_ERR_UNSUPPORTED`, not `UCS_ERR_INVALID_PARAM`. -/
theorem init_without_address_or_request_counterexample :
    (sampleParams 128 0).field_mask &&& sampleConsts.UCT_EP_PARAM_FIELD_SOCKADDR = 0 ∧
    (sampleParams 128 0).field_mask &&& sampleConsts.UCT_EP_PARAM_FIELD_CONN_REQUEST = 0 ∧
    (uct_rdmacm_cm_ep_t_init sampleConsts envAllOk 1 epGarbage (sampleParams 128 0)).status =
      UCS_ERR_UNSUPPORTED ∧
    (uct_rdmacm_cm_ep_t_init sampleConsts envAllOk 1 epGarbage (sampleParams 128 0)).status ≠
      UCS_ERR_INVALID_PARAM := by
  decide

/-- Witness of C5 as amended: manager field and callback flags marked present with
the `ASYNC` bit, no target address and no connection request. -/
theorem init_without_address_or_request_witness :
    (uct_rdmacm_cm_ep_t_init sampleConsts envAllOk 1 epGarbage (sampleParams 160 4)).status =
      UCS_ERR_INVALID_PARAM :=
  (init_without_address_or_request sampleConsts envAllOk 1 epGarbage (sampleParams 160 4)
    (by decide) (by decide)).1 (by decide)

/-! ## Construction: role dispatch -/

/-- After the three parameter checks and a successful base-class initialiser, the
constructor is the field assignments followed by the role dispatch. -/
theorem init_pass_validation (K : Consts) (E : Env) (self_ptr : Ptr)
    (self : uct_rdmacm_cm_ep_t) (params : uct_ep_params_t)
    (hcm : params.field_mask &&& K.UCT_EP_PARAM_FIELD_CM ≠ 0)
    (hcb : params.field_mask &&& K.UCT_EP_PARAM_FIELD_SOCKADDR_CB_FLAGS ≠ 0)
    (hasync : params.sockaddr_cb_flags &&& K.UCT_CB_FLAG_ASYNC ≠ 0)
    (hrole : ¬ (params.field_mask &&& K.UCT_EP_PARAM_FIELD_SOCKADDR = 0 ∧
                params.field_mask &&& K.UCT_EP_PARAM_FIELD_CONN_REQUEST = 0))
    (hsuper : E.uct_base_ep_t_init self_ptr params.cm = UCS_OK) :
    uct_rdmacm_cm_ep_t_init K E self_ptr self params =
      if (role_dispatch K E self_ptr self params).status = UCS_OK then
        { status := (role_dispatch K E self_ptr self params).status,
          ep := (role_dispatch K E self_ptr self params).ep,
          events := events_before_dispatch K self_ptr self params ++
            (role_dispatch K E self_ptr self params).events ++
            [Event.log LogMsg.debug_created_an_endpoint] }
      else
        { status := (role_dispatch K E self_ptr self params).status,
          ep := (role_dispatch K E self_ptr self params).ep,
          events := events_before_dispatch K self_ptr self params ++
            (role_dispatch K E self_ptr self params).events } := by
  have hboth : ¬ (params.field_mask &&&
      (K.UCT_EP_PARAM_FIELD_SOCKADDR ||| K.UCT_EP_PARAM_FIELD_CONN_REQUEST) = 0) := by
    rw [land_lor_eq_zero_iff]; exact hrole
  have hval : ¬ (params.field_mask &&& K.UCT_EP_PARAM_FIELD_SOCKADDR_CB_FLAGS = 0 ∨
      params.sockaddr_cb_flags &&& K.UCT_CB_FLAG_ASYNC = 0) := by
    rintro (h | h)
    · exact hcb h
    · exact hasync h
  have hsup : ¬ (E.uct_base_ep_t_init self_ptr params.cm ≠ UCS_OK) := by
    simp [hsuper]
  unfold uct_rdmacm_cm_ep_t_init
  simp only [if_neg hcm, if_neg hval, if_neg hboth, if_neg hsup]
  rfl

/-- The three paths of `uct_rdamcm_cm_ep_client_init` entered on
`ep_before_dispatch`: identifier creation fails; it succeeds and resolution fails;
both succeed. -/
theorem client_init_paths (K : Consts) (E : Env) (self_ptr : Ptr)
    (self : uct_rdmacm_cm_ep_t) (params : uct_ep_params_t) :
    uct_rdamcm_cm_ep_client_init K E self_ptr (ep_before_dispatch K self params) params =
      if (created_id K E self_ptr self params).1 ≠ 0 then
        { status := UCS_ERR_IO_ERROR,
          ep := { ep_before_dispatch K self params with
                  wireup_client_connect_cb := params.sockaddr_connect_cb_client,
                  id := (created_id K E self_ptr self params).2 },
          events :=
            [Event.write Field.wireup_client_connect_cb params.sockaddr_connect_cb_client,
             Event.call (Call.rdma_create_id (E.cm_ev_ch params.cm) self_ptr K.RDMA_PS_TCP),
             Event.write Field.id (created_id K E self_ptr self params).2,
             Event.log LogMsg.error_rdma_create_id_failed] }
      else if resolve_ret K E self_ptr self params ≠ 0 then
        { status := UCS_ERR_IO_ERROR,
          ep := { ep_before_dispatch K self params with
                  wireup_client_connect_cb := params.sockaddr_connect_cb_client,
                  id := (created_id K E self_ptr self params).2 },
          events :=
            [Event.write Field.wireup_client_connect_cb params.sockaddr_connect_cb_client,
             Event.call (Call.rdma_create_id (E.cm_ev_ch params.cm) self_ptr K.RDMA_PS_TCP),
             Event.write Field.id (created_id K E self_ptr self params).2,
             Event.call (Call.rdma_resolve_addr (created_id K E self_ptr self params).2 0
               params.sockaddr_addr 1000),
             Event.log LogMsg.error_rdma_resolve_addr_failed,
             Event.call (Call.uct_rdmacm_cm_destroy_id
               (created_id K E self_ptr self params).2)] }
      else
        { status := UCS_OK,
          ep := { ep_before_dispatch K self params with
                  wireup_client_connect_cb := params.sockaddr_connect_cb_client,
                  id := (created_id K E self_ptr self params).2 },
          events :=
            [Event.write Field.wireup_client_connect_cb params.sockaddr_connect_cb_client,
             Event.call (Call.rdma_create_id (E.cm_ev_ch params.cm) self_ptr K.RDMA_PS_TCP),
             Event.write Field.id (created_id K E self_ptr self params).2,
             Event.call (Call.rdma_resolve_addr (created_id K E self_ptr self params).2 0
               params.sockaddr_addr 1000)] } := by
  unfold uct_rdamcm_cm_ep_client_init
  rfl

/-- After the three parameter checks, a base-class initialiser that does not return
`UCS_OK` ends the constructor: its status is returned, the one call made is the
initialiser, and the endpoint is as on entry. -/
theorem init_super_fails (K : Consts) (E : Env) (self_ptr : Ptr)
    (self : uct_rdmacm_cm_ep_t) (params : uct_ep_params_t)
    (hcm : params.field_mask &&& K.UCT_EP_PARAM_FIELD_CM ≠ 0)
    (hcb : params.field_mask &&& K.UCT_EP_PARAM_FIELD_SOCKADDR_CB_FLAGS ≠ 0)
    (hasync : params.sockaddr_cb_flags &&& K.UCT_CB_FLAG_ASYNC ≠ 0)
    (hrole : ¬ (params.field_mask &&& K.UCT_EP_PARAM_FIELD_SOCKADDR = 0 ∧
                params.field_mask &&& K.UCT_EP_PARAM_FIELD_CONN_REQUEST = 0))
    (hsuper : E.uct_base_ep_t_init self_ptr params.cm ≠ UCS_OK) :
    uct_rdmacm_cm_ep_t_init K E self_ptr self params =
      { status := E.uct_base_ep_t_init self_ptr params.cm, ep := self,
        events := [Event.call (Call.uct_base_ep_t_init self_ptr params.cm)] } := by
  have hboth : ¬ (params.field_mask &&&
      (K.UCT_EP_PARAM_FIELD_SOCKADDR ||| K.UCT_EP_PARAM_FIELD_CONN_REQUEST) = 0) := by
    rw [land_lor_eq_zero_iff]; exact hrole
  have hval : ¬ (params.field_mask &&& K.UCT_EP_PARAM_FIELD_SOCKADDR_CB_FLAGS = 0 ∨
      params.sockaddr_cb_flags &&& K.UCT_CB_FLAG_ASYNC = 0) := by
    rintro (h | h)
    · exact hcb h
    · exact hasync h
  unfold uct_rdmacm_cm_ep_t_init
  simp only [if_neg hcm, if_neg hval, if_neg hboth, if_pos hsuper]

/-- C6, as amended: server-role construction (manager field, callback flags with the
`ASYNC` bit and a connection request marked present, no target address) never
returns `UCS_OK`: it returns `UCS_ERR_NOT_IMPLEMENTED` when the base-class
initialiser returns `UCS_OK`, and the initialiser's status otherwise.  On both
paths the only primitive it calls is the base-class initialiser, so no
`ibv_create_cq`, `ibv_create_qp` or `rdma_create_id` is called, and none is called
by any number of repetitions of the construction either. -/
theorem server_init_not_implemented (K : Consts) (E : Env) (self_ptr : Ptr)
    (self : uct_rdmacm_cm_ep_t) (params : uct_ep_params_t)
    (hcm : params.field_mask &&& K.UCT_EP_PARAM_FIELD_CM ≠ 0)
    (hcb : params.field_mask &&& K.UCT_EP_PARAM_FIELD_SOCKADDR_CB_FLAGS ≠ 0)
    (hasync : params.sockaddr_cb_flags &&& K.UCT_CB_FLAG_ASYNC ≠ 0)
    (hreq : params.field_mask &&& K.UCT_EP_PARAM_FIELD_CONN_REQUEST ≠ 0)
    (hsock : params.field_mask &&& K.UCT_EP_PARAM_FIELD_SOCKADDR = 0) :
    (E.uct_base_ep_t_init self_ptr params.cm = UCS_OK →
      (uct_rdmacm_cm_ep_t_init K E self_ptr self params).status =
        UCS_ERR_NOT_IMPLEMENTED) ∧
    (E.uct_base_ep_t_init self_ptr params.cm ≠ UCS_OK →
      (uct_rdmacm_cm_ep_t_init K E self_ptr self params).status =
        E.uct_base_ep_t_init self_ptr params.cm) ∧
    (uct_rdmacm_cm_ep_t_init K E self_ptr self params).status ≠ UCS_OK ∧
    callsOf (uct_rdmacm_cm_ep_t_init K E self_ptr self params).events =
      [Call.uct_base_ep_t_init self_ptr params.cm] ∧
    (callsOf (uct_rdmacm_cm_ep_t_init K E self_ptr self params).events).filter Call.isAlloc
      = [] ∧
    (∀ n : Nat,
      (callsOf (List.replicate n
        (uct_rdmacm_cm_ep_t_init K E self_ptr self params).events).flatten).filter
          Call.isAlloc = []) := by
  have hrole : ¬ (params.field_mask &&& K.UCT_EP_PARAM_FIELD_SOCKADDR = 0 ∧
      params.field_mask &&& K.UCT_EP_PARAM_FIELD_CONN_REQUEST = 0) := fun h => hreq h.2
  have hok : E.uct_base_ep_t_init self_ptr params.cm = UCS_OK →
      uct_rdmacm_cm_ep_t_init K E self_ptr self params =
        { status := UCS_ERR_NOT_IMPLEMENTED, ep := ep_before_dispatch K self params,
          events := events_before_dispatch K self_ptr self params } := by
    intro hsuper
    have hinit := init_pass_validation K E self_ptr self params hcm hcb hasync hrole hsuper
    have hd : role_dispatch K E self_ptr self params =
        { status := UCS_ERR_NOT_IMPLEMENTED, ep := ep_before_dispatch K self params,
          events := [] } := by
      unfold role_dispatch uct_rdamcm_cm_ep_server_init
      simp [hsock, hreq]
    rw [hd] at hinit
    simp only [reduceCtorEq, if_false, List.append_nil] at hinit
    exact hinit
  have hcalls : callsOf (uct_rdmacm_cm_ep_t_init K E self_ptr self params).events =
      [Call.uct_base_ep_t_init self_ptr params.cm] := by
    by_cases hsuper : E.uct_base_ep_t_init self_ptr params.cm = UCS_OK
    · rw [hok hsuper]
      simp [events_before_dispatch]
    · rw [init_super_fails K E self_ptr self params hcm hcb hasync hrole hsuper]
      simp
  refine ⟨?_, ?_, ?_, hcalls, by rw [hcalls]; rfl, ?_⟩
  · intro hsuper
    rw [hok hsuper]
  · intro hsuper
    rw [init_super_fails K E self_ptr self params hcm hcb hasync hrole hsuper]
  · by_cases hsuper : E.uct_base_ep_t_init self_ptr params.cm = UCS_OK
    · rw [hok hsuper]
      simp
    · rw [init_super_fails K E self_ptr self params hcm hcb hasync hrole hsuper]
      exact hsuper
  · intro n
    induction n with
    | zero => rfl
    | succ k ih =>
      rw [List.replicate_succ, List.flatten_cons, callsOf_append, List.filter_append, ih,
        hcalls]
      rfl

/-- C6 as stated fails: with server-role parameters (mask `128 + 32 + 256`, `ASYNC`
bit) and a base-class initialiser answering `UCS_ERR_NO_MEMORY`, the constructor
returns `UCS_ERR_NO_MEMORY`, not `UCS_ERR_NOT_IMPLEMENTED`. -/
theorem server_init_not_implemented_counterexample :
    (sampleParams 416 4).field_mask &&& sampleConsts.UCT_EP_PARAM_FIELD_CM ≠ 0 ∧
    (sampleParams 416 4).field_mask &&& sampleConsts.UCT_EP_PARAM_FIELD_SOCKADDR_CB_FLAGS ≠ 0 ∧
    (sampleParams 416 4).sockaddr_cb_flags &&& sampleConsts.UCT_CB_FLAG_ASYNC ≠ 0 ∧
    (sampleParams 416 4).field_mask &&& sampleConsts.UCT_EP_PARAM_FIELD_CONN_REQUEST ≠ 0 ∧
    (sampleParams 416 4).field_mask &&& sampleConsts.UCT_EP_PARAM_FIELD_SOCKADDR = 0 ∧
    (uct_rdmacm_cm_ep_t_init sampleConsts envSuperFails 1 epGarbage
      (sampleParams 416 4)).status = UCS_ERR_NO_MEMORY ∧
    (uct_rdmacm_cm_ep_t_init sampleConsts envSuperFails 1 epGarbage
      (sampleParams 416 4)).status ≠ UCS_ERR_NOT_IMPLEMENTED := by
  decide

/-- Witness of C6 as amended: manager field, callback flags and connection request
marked present with the `ASYNC` bit (mask `128 + 32 + 256`), base-class initialiser
succeeding. -/
theorem server_init_not_implemented_witness :
    (uct_rdmacm_cm_ep_t_init sampleConsts envAllOk 1 epGarbage (sampleParams 416 4)).status =
      UCS_ERR_NOT_IMPLEMENTED :=
  (server_init_not_implemented sampleConsts envAllOk 1 epGarbage (sampleParams 416 4)
    (by decide) (by decide) (by decide) (by decide) (by decide)).1 (by decide)

/-- C10, as amended: the status of the constructor follows a fixed precedence.  A
missing manager field gives `UCS_ERR_INVALID_PARAM`; otherwise a missing
callback-flags field or `ASYNC` bit gives `UCS_ERR_UNSUPPORTED`; otherwise neither
a target address nor a connection request gives `UCS_ERR_INVALID_PARAM`; otherwise
a base-class initialiser that does not return `UCS_OK` gives the initialiser's
status; otherwise a target address gives the status of
`uct_rdamcm_cm_ep_client_init`, whether or not a connection request is also
present; otherwise `UCS_ERR_NOT_IMPLEMENTED`.  The diagnostic of the last branch
of the role dispatch is never emitted, and in the first three cases no primitive
is called, no endpoint field is assigned and the endpoint is as on entry. -/
theorem init_status_precedence (K : Consts) (E : Env) (self_ptr : Ptr)
    (self : uct_rdmacm_cm_ep_t) (params : uct_ep_params_t) :
    (uct_rdmacm_cm_ep_t_init K E self_ptr self params).status =
      (if params.field_mask &&& K.UCT_EP_PARAM_FIELD_CM = 0 then UCS_ERR_INVALID_PARAM
       else if params.field_mask &&& K.UCT_EP_PARAM_FIELD_SOCKADDR_CB_FLAGS = 0 ∨
               params.sockaddr_cb_flags &&& K.UCT_CB_FLAG_ASYNC = 0 then UCS_ERR_UNSUPPORTED
       else if params.field_mask &&& K.UCT_EP_PARAM_FIELD_SOCKADDR = 0 ∧
               params.field_mask &&& K.UCT_EP_PARAM_FIELD_CONN_REQUEST = 0 then
         UCS_ERR_INVALID_PARAM
       else if E.uct_base_ep_t_init self_ptr params.cm ≠ UCS_OK then
         E.uct_base_ep_t_init self_ptr params.cm
       else if params.field_mask &&& K.UCT_EP_PARAM_FIELD_SOCKADDR ≠ 0 then
         (uct_rdamcm_cm_ep_client_init K E self_ptr
           (ep_before_dispatch K self params) params).status
       else UCS_ERR_NOT_IMPLEMENTED) ∧
    Event.log LogMsg.error_either_sockaddr_or_conn_request ∉
      (uct_rdmacm_cm_ep_t_init K E self_ptr self params).events ∧
    (params.field_mask &&& K.UCT_EP_PARAM_FIELD_CM = 0 ∨
      (params.field_mask &&& K.UCT_EP_PARAM_FIELD_SOCKADDR_CB_FLAGS = 0 ∨
        params.sockaddr_cb_flags &&& K.UCT_CB_FLAG_ASYNC = 0) ∨
      (params.field_mask &&& K.UCT_EP_PARAM_FIELD_SOCKADDR = 0 ∧
        params.field_mask &&& K.UCT_EP_PARAM_FIELD_CONN_REQUEST = 0) →
      (uct_rdmacm_cm_ep_t_init K E self_ptr self params).ep = self ∧
      writesOf (uct_rdmacm_cm_ep_t_init K E self_ptr self params).events = [] ∧
      callsOf (uct_rdmacm_cm_ep_t_init K E self_ptr self params).events = []) := by
  by_cases hcm : params.field_mask &&& K.UCT_EP_PARAM_FIELD_CM = 0
  · unfold uct_rdmacm_cm_ep_t_init
    simp [hcm]
  by_cases hval : params.field_mask &&& K.UCT_EP_PARAM_FIELD_SOCKADDR_CB_FLAGS = 0 ∨
      params.sockaddr_cb_flags &&& K.UCT_CB_FLAG_ASYNC = 0
  · unfold uct_rdmacm_cm_ep_t_init
    simp [hcm, hval]
  by_cases hrole : params.field_mask &&& K.UCT_EP_PARAM_FIELD_SOCKADDR = 0 ∧
      params.field_mask &&& K.UCT_EP_PARAM_FIELD_CONN_REQUEST = 0
  · have hboth := (land_lor_eq_zero_iff params.field_mask K.UCT_EP_PARAM_FIELD_SOCKADDR
      K.UCT_EP_PARAM_FIELD_CONN_REQUEST).2 hrole
    unfold uct_rdmacm_cm_ep_t_init
    simp [hcm, hval, hboth, hrole]
  have hcb : params.field_mask &&& K.UCT_EP_PARAM_FIELD_SOCKADDR_CB_FLAGS ≠ 0 :=
    fun h => hval (Or.inl h)
  have hasync : params.sockaddr_cb_flags &&& K.UCT_CB_FLAG_ASYNC ≠ 0 :=
    fun h => hval (Or.inr h)
  refine ⟨?_, ?_, ?_⟩
  · rw [if_neg hcm, if_neg hval, if_neg hrole]
    by_cases hsuper : E.uct_base_ep_t_init self_ptr params.cm = UCS_OK
    · rw [init_pass_validation K E self_ptr self params hcm hcb hasync hrole hsuper]
      rw [if_neg (not_not.mpr hsuper)]
      have hst : ∀ (r : EpResult) (a b : List Event),
          (if r.status = UCS_OK then
            ({ status := r.status, ep := r.ep, events := a } : EpResult)
           else { status := r.status, ep := r.ep, events := b }).status = r.status := by
        intro r a b
        split_ifs <;> rfl
      rw [hst]
      unfold role_dispatch
      by_cases hs : params.field_mask &&& K.UCT_EP_PARAM_FIELD_SOCKADDR = 0
      · have hr : params.field_mask &&& K.UCT_EP_PARAM_FIELD_CONN_REQUEST ≠ 0 :=
          fun h => hrole ⟨hs, h⟩
        simp [hs, hr, uct_rdamcm_cm_ep_server_init]
      · simp [hs]
    · rw [init_super_fails K E self_ptr self params hcm hcb hasync hrole hsuper,
        if_pos hsuper]
  · by_cases hsuper : E.uct_base_ep_t_init self_ptr params.cm = UCS_OK
    · rw [init_pass_validation K E self_ptr self params hcm hcb hasync hrole hsuper]
      have hd : Event.log LogMsg.error_either_sockaddr_or_conn_request ∉
          (role_dispatch K E self_ptr self params).events := by
        unfold role_dispatch
        by_cases hs : params.field_mask &&& K.UCT_EP_PARAM_FIELD_SOCKADDR = 0
        · have hr : params.field_mask &&& K.UCT_EP_PARAM_FIELD_CONN_REQUEST ≠ 0 :=
            fun h => hrole ⟨hs, h⟩
          simp [hs, hr, uct_rdamcm_cm_ep_server_init]
        · rw [if_pos hs, client_init_paths]
          split_ifs <;> simp
      split_ifs <;> simp [events_before_dispatch, hd]
    · rw [init_super_fails K E self_ptr self params hcm hcb hasync hrole hsuper]
      simp
  · rintro (h | h | h)
    · exact absurd h hcm
    · exact absurd h hval
    · exact absurd h hrole

/-- C10 as stated fails: with manager field, callback flags, target address and
connection request all marked present (mask `128 + 32 + 16 + 256`, `ASYNC` bit) and
a base-class initialiser answering `UCS_ERR_NO_MEMORY`, the precedence of the claim
gives the client initiator's status, which is `UCS_OK`, while the constructor
returns `UCS_ERR_NO_MEMORY`. -/
theorem init_status_precedence_counterexample :
    (sampleParams 432 4).field_mask &&& sampleConsts.UCT_EP_PARAM_FIELD_CM ≠ 0 ∧
    (sampleParams 432 4).field_mask &&& sampleConsts.UCT_EP_PARAM_FIELD_SOCKADDR_CB_FLAGS ≠ 0 ∧
    (sampleParams 432 4).sockaddr_cb_flags &&& sampleConsts.UCT_CB_FLAG_ASYNC ≠ 0 ∧
    (sampleParams 432 4).field_mask &&& sampleConsts.UCT_EP_PARAM_FIELD_SOCKADDR ≠ 0 ∧
    (uct_rdamcm_cm_ep_client_init sampleConsts envSuperFails 1
      (ep_before_dispatch sampleConsts epGarbage (sampleParams 432 4))
      (sampleParams 432 4)).status = UCS_OK ∧
    (uct_rdmacm_cm_ep_t_init sampleConsts envSuperFails 1 epGarbage
      (sampleParams 432 4)).status = UCS_ERR_NO_MEMORY := by
  decide

/-- Evaluation of C10 as amended: with target address and connection request both
marked present (mask `128 + 32 + 16 + 256`) and the base-class initialiser
succeeding, the status is the client initiator's, here `UCS_OK`. -/
theorem init_status_precedence_witness :
    (uct_rdmacm_cm_ep_t_init sampleConsts envAllOk 1 epGarbage (sampleParams 432 4)).status =
      UCS_OK :=
  (init_status_precedence sampleConsts envAllOk 1 epGarbage (sampleParams 432 4)).1.trans
    (by decide)

/-! ## Construction: the client role -/

/-- C1: in every client-role construction in which `rdma_create_id` succeeds (the
base-class initialiser having succeeded), the events split around the one
`rdma_resolve_addr` call.  Before it every endpoint field has been assigned, in
this order: `cm`, `wireup.priv_pack_cb`, `disconnect_cb`, `user_data`, `cq` and
`qp` (both `NULL`), `wireup.client.connect_cb`, `id`.  After it no endpoint field
is assigned on any path, and when the constructor returns `UCS_OK` no primitive is
called after it either.  The endpoint returned holds exactly the values assigned
before the call. -/
theorem resolve_addr_is_last (K : Consts) (E : Env) (self_ptr : Ptr)
    (self : uct_rdmacm_cm_ep_t) (params : uct_ep_params_t)
    (hcm : params.field_mask &&& K.UCT_EP_PARAM_FIELD_CM ≠ 0)
    (hcb : params.field_mask &&& K.UCT_EP_PARAM_FIELD_SOCKADDR_CB_FLAGS ≠ 0)
    (hasync : params.sockaddr_cb_flags &&& K.UCT_CB_FLAG_ASYNC ≠ 0)
    (hsock : params.field_mask &&& K.UCT_EP_PARAM_FIELD_SOCKADDR ≠ 0)
    (hsuper : E.uct_base_ep_t_init self_ptr params.cm = UCS_OK)
    (hcreate : (created_id K E self_ptr self params).1 = 0) :
    ∃ pre post : List Event,
      (uct_rdmacm_cm_ep_t_init K E self_ptr self params).events =
        pre ++ [Event.call (Call.rdma_resolve_addr (created_id K E self_ptr self params).2 0
                  params.sockaddr_addr 1000)] ++ post ∧
      writesOf pre =
        [(Field.cm, params.cm),
         (Field.wireup_priv_pack_cb, (ep_before_dispatch K self params).wireup_priv_pack_cb),
         (Field.disconnect_cb, (ep_before_dispatch K self params).disconnect_cb),
         (Field.user_data, (ep_before_dispatch K self params).user_data),
         (Field.cq, 0),
         (Field.qp, 0),
         (Field.wireup_client_connect_cb, params.sockaddr_connect_cb_client),
         (Field.id, (created_id K E self_ptr self params).2)] ∧
      callsOf pre =
        [Call.uct_base_ep_t_init self_ptr params.cm,
         Call.rdma_create_id (E.cm_ev_ch params.cm) self_ptr K.RDMA_PS_TCP] ∧
      writesOf post = [] ∧
      ((uct_rdmacm_cm_ep_t_init K E self_ptr self params).status = UCS_OK →
        callsOf post = []) ∧
      (uct_rdmacm_cm_ep_t_init K E self_ptr self params).ep =
        { cm := params.cm,
          id := (created_id K E self_ptr self params).2,
          cq := 0,
          qp := 0,
          wireup_priv_pack_cb := (ep_before_dispatch K self params).wireup_priv_pack_cb,
          wireup_client_connect_cb := params.sockaddr_connect_cb_client,
          disconnect_cb := (ep_before_dispatch K self params).disconnect_cb,
          user_data := (ep_before_dispatch K self params).user_data } := by
  rw [init_pass_validation K E self_ptr self params hcm hcb hasync
    (fun h => hsock h.1) hsuper]
  have hd : role_dispatch K E self_ptr self params =
      uct_rdamcm_cm_ep_client_init K E self_ptr (ep_before_dispatch K self params) params := by
    unfold role_dispatch
    rw [if_pos hsock]
  rw [hd, client_init_paths]
  by_cases hr : resolve_ret K E self_ptr self params = 0
  · refine ⟨events_before_dispatch K self_ptr self params ++
        [Event.write Field.wireup_client_connect_cb params.sockaddr_connect_cb_client,
         Event.call (Call.rdma_create_id (E.cm_ev_ch params.cm) self_ptr K.RDMA_PS_TCP),
         Event.write Field.id (created_id K E self_ptr self params).2],
       [Event.log LogMsg.debug_created_an_endpoint], ?_⟩
    simp [hcreate, hr, events_before_dispatch, ep_before_dispatch]
  · refine ⟨events_before_dispatch K self_ptr self params ++
        [Event.write Field.wireup_client_connect_cb params.sockaddr_connect_cb_client,
         Event.call (Call.rdma_create_id (E.cm_ev_ch params.cm) self_ptr K.RDMA_PS_TCP),
         Event.write Field.id (created_id K E self_ptr self params).2],
       [Event.log LogMsg.error_rdma_resolve_addr_failed,
        Event.call (Call.uct_rdmacm_cm_destroy_id (created_id K E self_ptr self params).2)],
       ?_⟩
    simp [hcreate, hr, events_before_dispatch, ep_before_dispatch]

/-- Witness of C1: client-role parameters (mask `128 + 32 + 16`, `ASYNC` bit) in an
environment where every primitive succeeds. -/
theorem resolve_addr_is_last_witness :
    (uct_rdmacm_cm_ep_t_init sampleConsts envAllOk 1 epGarbage (sampleParams 176 4)).ep =
      { cm := 40, id := 7, cq := 0, qp := 0, wireup_priv_pack_cb := 0,
        wireup_client_connect_cb := 44, disconnect_cb := 0, user_data := 0 } :=
  (resolve_addr_is_last sampleConsts envAllOk 1 epGarbage (sampleParams 176 4)
    (by decide) (by decide) (by decide) (by decide) (by decide) (by decide)).elim
    (fun _ h => h.elim (fun _ h2 => h2.2.2.2.2.2.trans (by decide)))

end Rdmacm
